import Mathlib

set_option maxHeartbeats 1000000

/-!
Shallow embedding of the `backend` package of the AgenticSqlAgent
repository (files `database.py`, `agent.py`, `main.py`), together with
theorems checking the specification's claims about it.

Modelling conventions:
* SQLite `INTEGER` columns are `ℤ`, `REAL` columns are `ℚ`, `TEXT`/`DATE`
  strings are `String` (dates in the seeder are abstracted to day indices
  `ℤ`, since `strftime("%Y-%m-%d")` keeps exactly the day).
* The Python `random` module is modelled by a `RandomSource`: an infinite
  supply of draws indexed by a counter that every primitive advances.
  `random.random()` values lie in `[0, 1)`, which is recorded in the
  structure, matching CPython's documented behaviour.
* Exceptions are modelled with `Except String`; a raised exception `e`
  carries the string `str(e)`.
-/

/-- One row of the `sales_people` table (`database.py`, CREATE TABLE at
lines 18-27).  `id` is the AUTOINCREMENT primary key. -/
structure SalesPerson where
  id : ℤ
  name : String
  email : String
  region : String
  hire_date : String
  quota : ℚ
deriving DecidableEq, Repr

/-- One row of the `sales` table (`database.py`, CREATE TABLE at lines
30-40).  The AUTOINCREMENT surrogate `id` is omitted: no claim mentions
it.  `sale_date` is the day index produced by the seeder. -/
structure Sale where
  sales_person_id : ℤ
  sale_date : ℤ
  amount : ℚ
  product_category : String
  customer_name : String
deriving DecidableEq, Repr

/-- The contents of the database file: the two tables created by
`init_database`. -/
structure DBState where
  sales_people : List SalesPerson
  sales : List Sale
deriving DecidableEq, Repr

/-- A database file that does not exist yet / has never been seeded. -/
def empty_db : DBState := ⟨[], []⟩

/-- The Python `random` module, as a deterministic supply of draws.
`ints k` feeds the integer-valued primitives (`randint`, `choice`) and
`reals k` feeds `random.uniform`; `k` is the number of draws made so
far.  `random.random()` returns a float in `[0, 1)`, hence the bounds on
`reals`. -/
structure RandomSource where
  ints : Nat → Nat
  reals : Nat → ℚ
  reals_nonneg : ∀ k, 0 ≤ reals k
  reals_lt_one : ∀ k, reals k < 1

/-- `random.randint(lo, hi)`: a uniformly random integer in `[lo, hi]`,
both endpoints included.  Returns the value and the advanced counter. -/
def random_randint (src : RandomSource) (k lo hi : Nat) : Nat × Nat :=
  (lo + src.ints k % (hi - lo + 1), k + 1)

/-- `random.choice(xs)`: a uniformly random element of `xs`.  The code
only ever calls it on non-empty lists; on `[]` (where Python raises)
this model returns `dflt`. -/
def random_choice (src : RandomSource) (k : Nat) (xs : List α) (dflt : α) : α × Nat :=
  (xs.getD (src.ints k % xs.length) dflt, k + 1)

/-- `random.uniform(lo, hi) = lo + (hi-lo) * random.random()`. -/
def random_uniform (src : RandomSource) (k : Nat) (lo hi : ℚ) : ℚ × Nat :=
  (lo + (hi - lo) * src.reals k, k + 1)

/-- Python `round(q)` to an integer: round half to even (banker's
rounding), as CPython's `round` does. -/
def round_half_even (q : ℚ) : ℤ :=
  let f := ⌊q⌋
  let r := q - f
  if r < 1/2 then f
  else if 1/2 < r then f + 1
  else if f % 2 = 0 then f else f + 1

/-- Python `round(q, 2)`: round to 2 decimal places. -/
def py_round2 (q : ℚ) : ℚ :=
  (round_half_even (q * 100) : ℚ) / 100

/-- The fixed roster of 8 sales people inserted by `init_database`
(`database.py` lines 46-55): name, email, region, hire date, quota. -/
def sales_people_rows : List (String × String × String × String × ℚ) :=
  [("Alice Johnson", "alice.johnson@company.com", "North", "2022-01-15", 100000.0),
   ("Bob Smith", "bob.smith@company.com", "South", "2022-03-20", 120000.0),
   ("Carol Williams", "carol.williams@company.com", "East", "2021-11-10", 95000.0),
   ("David Brown", "david.brown@company.com", "West", "2023-02-01", 110000.0),
   ("Eva Davis", "eva.davis@company.com", "North", "2022-07-15", 105000.0),
   ("Frank Miller", "frank.miller@company.com", "South", "2021-09-05", 115000.0),
   ("Grace Wilson", "grace.wilson@company.com", "East", "2023-01-10", 98000.0),
   ("Henry Moore", "henry.moore@company.com", "West", "2022-05-22", 125000.0)]

/-- `INSERT INTO sales_people ...` via `executemany`: AUTOINCREMENT
assigns consecutive ids starting from `nextId` (1 on a fresh table). -/
def insert_sales_people : ℤ → List (String × String × String × String × ℚ) → List SalesPerson
  | _, [] => []
  | nextId, (n, e, r, h, q) :: rest =>
    ⟨nextId, n, e, r, h, q⟩ :: insert_sales_people (nextId + 1) rest

/-- `product_categories` (`database.py` line 67). -/
def product_categories : List String :=
  ["Electronics", "Clothing", "Food", "Furniture", "Books", "Toys"]

/-- `customer_names` (`database.py` lines 68-72). -/
def customer_names : List String :=
  ["Acme Corp", "Tech Solutions", "Global Industries", "Mega Store",
   "City Retail", "Prime Services", "Elite Group", "Super Market",
   "Best Buy Co", "Top Shelf Inc", "Quality Goods", "Premium Brands"]

/-- The body of the inner `for _ in range(num_sales)` loop
(`database.py` lines 82-94): draw a sales person id, an amount, a
category and a customer, in that order, and build one `sales` row. -/
def mk_sale (src : RandomSource) (k : Nat) (ids : List ℤ) (sale_date : ℤ) : Sale × Nat :=
  let (pid, k1) := random_choice src k ids 0
  let (raw, k2) := random_uniform src k1 (100 : ℚ) 5000
  let amount := py_round2 raw
  let (cat, k3) := random_choice src k2 product_categories ""
  let (cust, k4) := random_choice src k3 customer_names ""
  (⟨pid, sale_date, amount, cat, cust⟩, k4)

/-- `num_sales` iterations of the inner loop for one day. -/
def gen_sales (src : RandomSource) (ids : List ℤ) (sale_date : ℤ) : Nat → Nat → List Sale × Nat
  | k, 0 => ([], k)
  | k, n + 1 =>
    let (s, k1) := mk_sale src k ids sale_date
    let (rest, k2) := gen_sales src ids sale_date k1 n
    (s :: rest, k2)

/-- One iteration of the outer `for day_offset in range(90)` loop
(`database.py` lines 77-94): draw `num_sales = randint(5, 15)`, then
generate that many sales dated `start_date + day_offset`. -/
def gen_day (src : RandomSource) (k : Nat) (ids : List ℤ) (start_date : ℤ)
    (day_offset : Nat) : List Sale × Nat :=
  let (num_sales, k1) := random_randint src k 5 15
  gen_sales src ids (start_date + day_offset) k1 num_sales

/-- The outer loop over the given day offsets (the code uses
`range(90)`), accumulating `sales_data` in order. -/
def gen_days (src : RandomSource) (ids : List ℤ) (start_date : ℤ) :
    Nat → List Nat → List Sale × Nat
  | k, [] => ([], k)
  | k, j :: rest =>
    let (rows, k1) := gen_day src k ids start_date j
    let (more, k2) := gen_days src ids start_date k1 rest
    (rows ++ more, k2)

/-- `init_database` (`database.py` lines 9-103) on the database state.
Schema creation (`CREATE TABLE IF NOT EXISTS`) does not change the
modelled state.  `now` is the call time as a day index, so
`start_date = now - 90`; if `SELECT COUNT(*) FROM sales_people` is 0 the
roster is inserted, the ids are read back, and 90 days of sales are
generated and appended. -/
def init_database (src : RandomSource) (now : ℤ) (st : DBState) : DBState :=
  if st.sales_people.length = 0 then
    let people := insert_sales_people 1 sales_people_rows
    let sales_person_ids := people.map SalesPerson.id
    let start_date := now - 90
    let sales_data := (gen_days src sales_person_ids start_date 0 (List.range 90)).1
    { sales_people := people, sales := st.sales ++ sales_data }
  else st

/-- `str.startswith(p)`, over the underlying character lists. -/
def str_starts_with (s p : String) : Bool :=
  p.toList.isPrefixOf s.toList

/-- Left-to-right, non-overlapping `str.replace(pat, rep)` on character
lists, with fuel (the code only calls it with the non-empty pattern
`"sqlite:///"`, for which `s.length` fuel suffices). -/
def str_replace_aux (pat rep : List Char) : Nat → List Char → List Char
  | 0, s => s
  | _ + 1, [] => []
  | fuel + 1, c :: cs =>
    if pat ≠ [] ∧ pat.isPrefixOf (c :: cs) then
      rep ++ str_replace_aux pat rep fuel ((c :: cs).drop pat.length)
    else
      c :: str_replace_aux pat rep fuel cs

/-- Python `s.replace(pat, rep)`. -/
def str_replace (s pat rep : String) : String :=
  ⟨str_replace_aux pat.toList rep.toList s.toList.length s.toList⟩

/-- `get_database_path` (`database.py` lines 106-118): extract the file
path from an SQLite database URL. -/
def get_database_path (database_url : String) : String :=
  if str_starts_with database_url "sqlite:///" then
    let path := str_replace database_url "sqlite:///" ""
    if str_starts_with path "./" then path
    else if !str_starts_with path "/" then "./" ++ path
    else path
  else database_url

/-- The whitespace characters stripped by Python's `str.strip()` (the
ASCII ones; the queries in the claims use only these). -/
def py_is_space (c : Char) : Bool :=
  c = ' ' || c = '\t' || c = '\n' || c = '\x0d' || c = '\x0b' || c = '\x0c'

/-- Python `s.strip()`: remove leading and trailing whitespace. -/
def py_strip (s : String) : String :=
  ⟨((s.toList.dropWhile py_is_space).reverse.dropWhile py_is_space).reverse⟩

/-- The mapping returned by a successful `agent.invoke({"input": ...})`:
an `output` field and an `intermediate_steps` field, either of which may
be absent (`result.get(...)` supplies a default).  Step items are opaque
and modelled as strings. -/
structure AgentResult where
  output : Option String
  intermediate_steps : Option (List String)
deriving DecidableEq, Repr

/-- The external agent handle: `invoke` either returns an
`AgentResult` or raises an exception with message `e`. -/
def Agent : Type := String → Except String AgentResult

/-- The dict returned by `query_database` (`agent.py` lines 63-77).
Keys absent from the Python dict are `none` (`error` on success,
`intermediate_steps` on failure); `"result": None` is also `none`. -/
structure QueryDBResult where
  success : Bool
  result : Option String
  error : Option String
  intermediate_steps : Option (List String)
deriving DecidableEq, Repr

/-- `query_database` (`agent.py` lines 63-77), instrumented with the
number of times `agent.invoke` was called (always exactly once: the
single `try` body, never retried).  A raised exception is caught and
turned into the failure dict. -/
def query_database (agent : Agent) (query : String) : QueryDBResult × Nat :=
  match agent query with
  | .ok result =>
    ({ success := true
       result := some (result.output.getD "No result returned")
       error := none
       intermediate_steps := some (result.intermediate_steps.getD []) }, 1)
  | .error e =>
    ({ success := false
       result := none
       error := some e
       intermediate_steps := none }, 1)

/-- The `QueryResponse` pydantic model (`main.py` lines 32-37); fields
not passed at construction default to `None`. -/
structure QueryResponse where
  success : Bool
  result : Option String := none
  error : Option String := none
  intermediate_steps : Option (List String) := none
deriving DecidableEq, Repr

/-- What `execute_query` sends back: either an `HTTPException` with a
status code and detail message, or a `QueryResponse` body. -/
inductive ExecResult where
  | httpError (status : Nat) (detail : String)
  | response (r : QueryResponse)
deriving DecidableEq, Repr

/-- The `/query` handler `execute_query` (`main.py` lines 106-127),
instrumented with the number of times `query_database` invoked the
agent.  `agent_executor` is the global, `none` before startup
completes.  The order of the two guards follows the code: the
not-initialized check precedes the empty-query check. -/
def execute_query (agent_executor : Option Agent) (query : String) : ExecResult × Nat :=
  match agent_executor with
  | none => (.httpError 503 "Agent not initialized", 0)
  | some agent =>
    if py_strip query = "" then
      (.httpError 400 "Query cannot be empty", 0)
    else
      let (result, calls) := query_database agent query
      if result.success then
        (.response { success := true
                     result := result.result
                     intermediate_steps := result.intermediate_steps }, calls)
      else
        (.response { success := false, error := result.error }, calls)

/-! ## Concrete instances used by witnesses -/

/-- A concrete random source: every draw is 0. -/
def const_source : RandomSource where
  ints := fun _ => 0
  reals := fun _ => 0
  reals_nonneg := fun _ => le_refl 0
  reals_lt_one := fun _ => by norm_num

/-- A concrete agent that always raises with message `"boom"`. -/
def boom_agent : Agent := fun _ => .error "boom"

/-- A concrete agent that always returns the given mapping. -/
def const_agent (r : AgentResult) : Agent := fun _ => .ok r

/-- A database state with one sales person already present. -/
def one_person_db : DBState :=
  ⟨[⟨1, "A", "a@b.com", "North", "2020-01-01", 1⟩], []⟩

/-! ## Lemmas about the random primitives and the seeding loops -/

theorem random_randint_5_15 (src : RandomSource) (k : Nat) :
    5 ≤ (random_randint src k 5 15).1 ∧ (random_randint src k 5 15).1 ≤ 15 := by
  unfold random_randint
  have h : src.ints k % 11 < 11 := Nat.mod_lt _ (by norm_num)
  omega

theorem random_choice_mem (src : RandomSource) (k : Nat) (xs : List α)
    (dflt : α) (h : xs ≠ []) : (random_choice src k xs dflt).1 ∈ xs := by
  unfold random_choice
  have hlen : 0 < xs.length := List.length_pos.mpr h
  have hidx : src.ints k % xs.length < xs.length := Nat.mod_lt _ hlen
  simp only [List.getD_eq_getElem _ _ hidx]
  exact List.getElem_mem hidx

theorem round_half_even_cases (q : ℚ) :
    round_half_even q = ⌊q⌋ ∨ round_half_even q = ⌊q⌋ + 1 := by
  simp only [round_half_even]
  split_ifs <;> simp

theorem le_round_half_even (q : ℚ) (z : ℤ) (h : (z : ℚ) ≤ q) :
    z ≤ round_half_even q := by
  have hf : z ≤ ⌊q⌋ := Int.le_floor.mpr h
  rcases round_half_even_cases q with h1 | h1 <;> omega

theorem round_half_even_le (q : ℚ) (z : ℤ) (h : q < (z : ℚ)) :
    round_half_even q ≤ z := by
  have hf : ⌊q⌋ < z := Int.floor_lt.mpr h
  rcases round_half_even_cases q with h1 | h1 <;> omega

theorem py_round2_bounds (q : ℚ) (h1 : 100 ≤ q) (h2 : q < 5000) :
    100 ≤ py_round2 q ∧ py_round2 q ≤ 5000 := by
  have lb : (10000 : ℤ) ≤ round_half_even (q * 100) := by
    refine le_round_half_even _ _ ?_
    push_cast
    linarith
  have ub : round_half_even (q * 100) ≤ (500000 : ℤ) := by
    refine round_half_even_le _ _ ?_
    push_cast
    linarith
  unfold py_round2
  constructor
  · rw [le_div_iff₀ (by norm_num : (0 : ℚ) < 100)]
    exact_mod_cast lb
  · rw [div_le_iff₀ (by norm_num : (0 : ℚ) < 100)]
    exact_mod_cast ub

theorem py_round2_two_decimals (q : ℚ) : (py_round2 q * 100).den = 1 := by
  unfold py_round2
  rw [div_mul_cancel₀ _ (by norm_num : (100 : ℚ) ≠ 0)]
  exact Rat.den_intCast _

theorem random_uniform_bounds (src : RandomSource) (k : Nat) :
    100 ≤ (random_uniform src k 100 5000).1 ∧
    (random_uniform src k 100 5000).1 < 5000 := by
  unfold random_uniform
  dsimp only
  have h0 := src.reals_nonneg k
  have h1 := src.reals_lt_one k
  constructor
  · nlinarith
  · nlinarith

theorem mk_sale_ok (src : RandomSource) (k : Nat) (ids : List ℤ) (d : ℤ)
    (hids : ids ≠ []) :
    (mk_sale src k ids d).1.sales_person_id ∈ ids ∧
    (mk_sale src k ids d).1.sale_date = d ∧
    100 ≤ (mk_sale src k ids d).1.amount ∧
    (mk_sale src k ids d).1.amount ≤ 5000 ∧
    ((mk_sale src k ids d).1.amount * 100).den = 1 := by
  have hmem := random_choice_mem src k ids 0 hids
  have hu := random_uniform_bounds src (k + 1)
  have hb := py_round2_bounds _ hu.1 hu.2
  exact ⟨hmem, rfl, hb.1, hb.2, py_round2_two_decimals _⟩

theorem mk_sale_date (src : RandomSource) (k : Nat) (ids : List ℤ) (d : ℤ) :
    (mk_sale src k ids d).1.sale_date = d := rfl

theorem gen_sales_forall (src : RandomSource) (ids : List ℤ) (d : ℤ)
    (P : Sale → Prop) (hP : ∀ k, P (mk_sale src k ids d).1) :
    ∀ n k, ∀ s ∈ (gen_sales src ids d k n).1, P s := by
  intro n
  induction n with
  | zero => intro k s hs; simp [gen_sales] at hs
  | succ n ih =>
    intro k s hs
    rw [gen_sales] at hs
    rcases List.mem_cons.mp hs with h | h
    · exact h ▸ hP k
    · exact ih _ s h

theorem gen_sales_length (src : RandomSource) (ids : List ℤ) (d : ℤ) :
    ∀ n k, (gen_sales src ids d k n).1.length = n := by
  intro n
  induction n with
  | zero => intro k; rfl
  | succ n ih => intro k; rw [gen_sales]; simp [ih]

theorem gen_day_forall (src : RandomSource) (k : Nat) (ids : List ℤ)
    (sd : ℤ) (j : Nat) (P : Sale → Prop)
    (hP : ∀ k', P (mk_sale src k' ids (sd + j)).1) :
    ∀ s ∈ (gen_day src k ids sd j).1, P s := by
  intro s hs
  exact gen_sales_forall src ids (sd + j) P hP _ _ s hs

theorem gen_days_forall (src : RandomSource) (ids : List ℤ) (sd : ℤ)
    (P : Sale → Prop) (hP : ∀ k' d, P (mk_sale src k' ids d).1) :
    ∀ js k, ∀ s ∈ (gen_days src ids sd k js).1, P s := by
  intro js
  induction js with
  | nil => intro k s hs; simp [gen_days] at hs
  | cons a rest ih =>
    intro k s hs
    rw [gen_days] at hs
    rcases List.mem_append.mp hs with h | h
    · exact gen_day_forall src k ids sd a P (fun k' => hP k' _) s h
    · exact ih _ s h

theorem countP_eq_of_dates (l : List Sale) (e : ℤ)
    (h : ∀ s ∈ l, s.sale_date = e) (d : ℤ) :
    l.countP (fun s => s.sale_date == d) = if e = d then l.length else 0 := by
  induction l with
  | nil => simp
  | cons a t ih =>
    have ha : a.sale_date = e := h a (List.mem_cons_self a t)
    have ht : ∀ s ∈ t, s.sale_date = e := fun s hs => h s (List.mem_cons_of_mem a hs)
    rw [List.countP_cons, ih ht]
    by_cases hed : e = d
    · subst hed
      simp [ha]
    · simp [ha, hed]

theorem gen_day_dates (src : RandomSource) (k : Nat) (ids : List ℤ)
    (sd : ℤ) (j : Nat) :
    ∀ s ∈ (gen_day src k ids sd j).1, s.sale_date = sd + j :=
  gen_day_forall src k ids sd j (fun s => s.sale_date = sd + j)
    (fun k' => mk_sale_date src k' ids (sd + j))

theorem gen_day_countP_self (src : RandomSource) (k : Nat) (ids : List ℤ)
    (sd : ℤ) (j : Nat) :
    5 ≤ (gen_day src k ids sd j).1.countP (fun s => s.sale_date == sd + j) ∧
    (gen_day src k ids sd j).1.countP (fun s => s.sale_date == sd + j) ≤ 15 := by
  rw [countP_eq_of_dates _ _ (gen_day_dates src k ids sd j) _, if_pos rfl]
  have hlen : (gen_day src k ids sd j).1.length = (random_randint src k 5 15).1 := by
    unfold gen_day
    exact gen_sales_length src ids _ _ _
  rw [hlen]
  exact random_randint_5_15 src k

theorem gen_day_countP_other (src : RandomSource) (k : Nat) (ids : List ℤ)
    (sd : ℤ) (j j' : Nat) (hne : j ≠ j') :
    (gen_day src k ids sd j).1.countP (fun s => s.sale_date == sd + j') = 0 := by
  rw [countP_eq_of_dates _ _ (gen_day_dates src k ids sd j) _, if_neg]
  intro h
  exact hne (Nat.cast_injective (by linarith : (j : ℤ) = (j' : ℤ)))

theorem gen_days_dates (src : RandomSource) (ids : List ℤ) (sd : ℤ) :
    ∀ js k, ∀ s ∈ (gen_days src ids sd k js).1,
      ∃ j ∈ js, s.sale_date = sd + j := by
  intro js
  induction js with
  | nil => intro k s hs; simp [gen_days] at hs
  | cons a rest ih =>
    intro k s hs
    rw [gen_days] at hs
    rcases List.mem_append.mp hs with h | h
    · exact ⟨a, List.mem_cons_self a rest, gen_day_dates src k ids sd a s h⟩
    · obtain ⟨j, hj, hd⟩ := ih _ s h
      exact ⟨j, List.mem_cons_of_mem a hj, hd⟩

theorem gen_days_countP (src : RandomSource) (ids : List ℤ) (sd : ℤ) :
    ∀ js : List Nat, js.Nodup → ∀ j : Nat, j ∈ js → ∀ k,
      5 ≤ (gen_days src ids sd k js).1.countP (fun s => s.sale_date == sd + (j : ℤ)) ∧
      (gen_days src ids sd k js).1.countP (fun s => s.sale_date == sd + (j : ℤ)) ≤ 15 := by
  intro js
  induction js with
  | nil => intro _ j hj; cases hj
  | cons a rest ih =>
    intro hnd j hj k
    have hnd' := List.nodup_cons.mp hnd
    rw [gen_days]
    simp only [List.countP_append]
    rcases List.mem_cons.mp hj with rfl | hjr
    · have hrest : (gen_days src ids sd (gen_day src k ids sd j).2 rest).1.countP
          (fun s => s.sale_date == sd + j) = 0 := by
        rw [List.countP_eq_zero]
        intro s hs
        obtain ⟨j', hj', hd⟩ := gen_days_dates src ids sd rest _ s hs
        have : j' ≠ j := fun h => hnd'.1 (h ▸ hj')
        simp only [beq_iff_eq, hd]
        intro hcontra
        exact this (Nat.cast_injective (by linarith : (j' : ℤ) = (j : ℤ)))
      rw [hrest]
      have := gen_day_countP_self src k ids sd j
      omega
    · have hday : (gen_day src k ids sd a).1.countP
          (fun s => s.sale_date == sd + j) = 0 := by
        refine gen_day_countP_other src k ids sd a j (fun h => ?_)
        exact hnd'.1 (h ▸ hjr)
      rw [hday]
      have := ih hnd'.2 j hjr (gen_day src k ids sd a).2
      omega

theorem seeded_people_eq :
    insert_sales_people 1 sales_people_rows ≠ [] ∧
    (insert_sales_people 1 sales_people_rows).length = 8 := by
  constructor <;> simp [insert_sales_people, sales_people_rows]

/-- The ids `SELECT id FROM sales_people` reads back right after the
roster insert on a fresh table. -/
def seeded_ids : List ℤ :=
  (insert_sales_people 1 sales_people_rows).map SalesPerson.id

theorem seeded_ids_ne_nil : seeded_ids ≠ [] := by
  simp [seeded_ids, insert_sales_people, sales_people_rows]

theorem init_database_empty_eq (src : RandomSource) (now : ℤ) :
    init_database src now empty_db =
      { sales_people := insert_sales_people 1 sales_people_rows,
        sales := (gen_days src seeded_ids (now - 90) 0 (List.range 90)).1 } := by
  simp [init_database, empty_db, seeded_ids]

/-! ## Claims about the bootstrapper -/

/-- C1: whenever any `sales_people` row exists, `init_database` is a
no-op (no rows inserted, regardless of the state of the `sales`
table); in particular calling it twice on an initially empty database
yields the same `sales_people` row count as calling it once. -/
theorem init_database_idempotent (src src2 : RandomSource) (now now2 : ℤ)
    (st : DBState) :
    (st.sales_people ≠ [] → init_database src2 now2 st = st) ∧
    (init_database src2 now2 (init_database src now empty_db)).sales_people.length =
      (init_database src now empty_db).sales_people.length := by
  constructor
  · intro h
    rw [init_database, if_neg (fun hc => h (List.length_eq_zero.mp hc))]
  · have hne : ¬ (init_database src now empty_db).sales_people.length = 0 := by
      rw [init_database_empty_eq]
      intro hc
      exact seeded_people_eq.1 (List.length_eq_zero.mp hc)
    rw [init_database, if_neg hne]

/-- Witness for C1: a database that already holds a sales person is
left unchanged (even though its `sales` table is empty). -/
theorem init_database_idempotent_witness :
    init_database const_source 0 one_person_db = one_person_db :=
  (init_database_idempotent const_source const_source 0 0 one_person_db).1
    (by simp [one_person_db])

/-- C2: every `sales` row generated by the seeding run of
`init_database` carries a `sales_person_id` drawn from the ids of the
`sales_people` rows inserted by that same run. -/
theorem init_database_referential_integrity (src : RandomSource) (now : ℤ) :
    ((init_database src now empty_db).sales.all
      (fun s => ((init_database src now empty_db).sales_people.map SalesPerson.id).contains
        s.sales_person_id)) = true := by
  rw [init_database_empty_eq, List.all_eq_true]
  intro s hs
  refine List.elem_eq_true_of_mem ?_
  exact gen_days_forall src seeded_ids (now - 90)
    (fun s => s.sales_person_id ∈ seeded_ids)
    (fun k d => (mk_sale_ok src k seeded_ids d seeded_ids_ne_nil).1)
    (List.range 90) 0 s hs

/-- C3: for each of the 90 consecutive seeded days (`now - 90 + j`,
`j < 90`), the number of generated `sales` rows dated that day is
between 5 and 15 inclusive. -/
theorem init_database_day_counts (src : RandomSource) (now : ℤ) (j : Nat)
    (hj : j < 90) :
    5 ≤ (init_database src now empty_db).sales.countP
        (fun s => s.sale_date == now - 90 + (j : ℤ)) ∧
    (init_database src now empty_db).sales.countP
        (fun s => s.sale_date == now - 90 + (j : ℤ)) ≤ 15 := by
  rw [init_database_empty_eq]
  exact gen_days_countP src seeded_ids (now - 90) (List.range 90)
    (List.nodup_range 90) j (List.mem_range.mpr hj) 0

/-- Witness for C3 at the first seeded day. -/
theorem init_database_day_counts_witness :
    5 ≤ (init_database const_source 0 empty_db).sales.countP
        (fun s => s.sale_date == (0 : ℤ) - 90 + ((0 : Nat) : ℤ)) ∧
    (init_database const_source 0 empty_db).sales.countP
        (fun s => s.sale_date == (0 : ℤ) - 90 + ((0 : Nat) : ℤ)) ≤ 15 :=
  init_database_day_counts const_source 0 0 (by norm_num)

/-- C4: every generated `sales` row has an `amount` in the closed
interval `[100, 5000]` that is an integer multiple of `1/100`
(exactly 2 decimal places). -/
theorem init_database_amount_bounds (src : RandomSource) (now : ℤ) :
    ((init_database src now empty_db).sales.all
      (fun s => decide (100 ≤ s.amount) && decide (s.amount ≤ 5000) &&
        decide ((s.amount * 100).den = 1))) = true := by
  rw [init_database_empty_eq, List.all_eq_true]
  intro s hs
  have h := gen_days_forall src seeded_ids (now - 90)
    (fun s => 100 ≤ s.amount ∧ s.amount ≤ 5000 ∧ (s.amount * 100).den = 1)
    (fun k d =>
      ⟨(mk_sale_ok src k seeded_ids d seeded_ids_ne_nil).2.2.1,
       (mk_sale_ok src k seeded_ids d seeded_ids_ne_nil).2.2.2.1,
       (mk_sale_ok src k seeded_ids d seeded_ids_ne_nil).2.2.2.2⟩)
    (List.range 90) 0 s hs
  simp only [Bool.and_eq_true, decide_eq_true_eq]
  exact ⟨⟨h.1, h.2.1⟩, h.2.2⟩

/-! ## Claims about the query façade and path extraction -/

/-- C5: `get_database_path` maps `sqlite:///./data/sales.db` to
`./data/sales.db`, `sqlite:///sales.db` to `./sales.db` (a relative
path with no leading slash is rooted at the current directory), and
`sqlite:////abs/sales.db` to `/abs/sales.db` (an absolute path is kept
absolute). -/
theorem get_database_path_spec :
    get_database_path "sqlite:///./data/sales.db" = "./data/sales.db" ∧
    get_database_path "sqlite:///sales.db" = "./sales.db" ∧
    get_database_path "sqlite:////abs/sales.db" = "/abs/sales.db" := by
  refine ⟨?_, ?_, ?_⟩ <;> rfl

/-- C6: a query that strips to the empty string (empty or
whitespace-only) is rejected by `execute_query` with the 400
invalid-input error, and the agent is never invoked (0 calls). -/
theorem execute_query_blank_rejected (agent : Agent) (query : String)
    (h : py_strip query = "") :
    execute_query (some agent) query =
      (.httpError 400 "Query cannot be empty", 0) := by
  simp [execute_query, h]

/-- Witness for C6 at the whitespace query `"   "` and at `""`. -/
theorem execute_query_blank_rejected_witness :
    execute_query (some boom_agent) "   " =
      (.httpError 400 "Query cannot be empty", 0) ∧
    execute_query (some boom_agent) "" =
      (.httpError 400 "Query cannot be empty", 0) :=
  ⟨execute_query_blank_rejected boom_agent "   " (by rfl),
   execute_query_blank_rejected boom_agent "" (by rfl)⟩

/-- C7: when the agent raises with message `e`, `query_database`
catches the exception and returns the failure dict
`{success: false, error: e, result: None}` (with no
`intermediate_steps` key), having invoked the agent exactly once —
never propagated, never retried. -/
theorem query_database_catches (agent : Agent) (query e : String)
    (h : agent query = .error e) :
    query_database agent query =
      ({ success := false, result := none, error := some e,
         intermediate_steps := none }, 1) := by
  simp [query_database, h]

/-- Witness for C7 at a concrete raising agent. -/
theorem query_database_catches_witness :
    query_database boom_agent "show sales" =
      ({ success := false, result := none, error := some "boom",
         intermediate_steps := none }, 1) :=
  query_database_catches boom_agent "show sales" "boom" (by rfl)

/-- C8: when the agent handle is initialized, the query is non-blank,
and the agent returns a mapping with an `output` field and an
`intermediate_steps` field, `execute_query` returns the success
envelope carrying exactly that output text and that steps sequence. -/
theorem execute_query_success_envelope (agent : Agent) (query out : String)
    (steps : List String) (hq : ¬ py_strip query = "")
    (h : agent query = .ok ⟨some out, some steps⟩) :
    execute_query (some agent) query =
      (.response { success := true, result := some out, error := none,
                   intermediate_steps := some steps }, 1) := by
  simp [execute_query, query_database, h, hq]

/-- Witness for C8 at the example from the spec. -/
theorem execute_query_success_envelope_witness :
    execute_query (some (const_agent ⟨some "42 sales today", some ["step1"]⟩))
        "How many sales today?" =
      (.response { success := true, result := some "42 sales today",
                   error := none, intermediate_steps := some ["step1"] }, 1) :=
  execute_query_success_envelope _ "How many sales today?" "42 sales today"
    ["step1"] (by decide) (by rfl)

/-- C9: while `agent_executor` is `none`, every request gets the 503
not-initialized error without the agent being invoked (0 calls), and
that error is distinct both from the 400 invalid-input error (any
detail) and from every response envelope. -/
theorem execute_query_not_initialized (query : String) :
    execute_query none query = (.httpError 503 "Agent not initialized", 0) ∧
    (∀ d, ExecResult.httpError 503 "Agent not initialized" ≠
          ExecResult.httpError 400 d) ∧
    (∀ r, ExecResult.httpError 503 "Agent not initialized" ≠
          ExecResult.response r) := by
  refine ⟨rfl, fun d hd => ?_, fun r hr => ?_⟩
  · cases hd
  · cases hr

/-- C10: when the agent invocation succeeds but the result mapping
lacks the `output` field, `query_database` still reports success, with
the fixed fallback string as result, and an empty steps list when
`intermediate_steps` is also absent. -/
theorem query_database_missing_output (agent : Agent) (query : String)
    (r : AgentResult) (h : agent query = .ok r) (ho : r.output = none) :
    (query_database agent query).1.success = true ∧
    (query_database agent query).1.result = some "No result returned" ∧
    (r.intermediate_steps = none →
      (query_database agent query).1.intermediate_steps = some []) :=
  ⟨by simp [query_database, h],
   by simp [query_database, h, ho],
   fun hs => by simp [query_database, h, hs]⟩

/-- Witness for C10 at a concrete agent returning the empty mapping. -/
theorem query_database_missing_output_witness :
    (query_database (const_agent ⟨none, none⟩) "q").1.success = true ∧
    (query_database (const_agent ⟨none, none⟩) "q").1.result =
      some "No result returned" ∧
    ((⟨none, none⟩ : AgentResult).intermediate_steps = none →
      (query_database (const_agent ⟨none, none⟩) "q").1.intermediate_steps =
        some []) :=
  query_database_missing_output (const_agent ⟨none, none⟩) "q" ⟨none, none⟩
    (by rfl) (by rfl)
